import Mathlib

/-!
Verification of the connection / tool-dispatch layer of the playwright-mcp
repository, shallowly embedded in Lean 4.

The embedding follows the TypeScript source:
* `createConnection` (tool filtering by mode and capabilities, the
  ListTools handler, the CallTool handler with its modal-state gate and
  error normalization) and `Connection.close`;
* the `browser_take_screenshot` tool: its zod input schema (with the
  element/ref refinement) and its `handle` function (file-name choice,
  screenshot options, code trace, deferred action, result override).

External collaborators (the MCP SDK server, `zodToJsonSchema`, the
`Context` class internals, `outputFile` / `standardizedOutputFile`,
`generateLocator`, `javascript.formatObject`, playwright itself) are
modelled as opaque data or as function parameters, since only their call
contracts are visible from the embedded files.
-/

namespace PlaywrightMcp

/-- A single text content item of an MCP result. -/
structure TextContent where
  type : String
  text : String
  deriving Repr, DecidableEq

/-- The MCP call-tool result envelope: `{ content, isError }`. -/
structure CallToolResult where
  content : List TextContent
  isError : Bool
  deriving Repr, DecidableEq

/-- `errorResult(...messages)` from `createConnection`: joins the messages
with a newline into a single text content and sets `isError: true`. -/
def errorResult (messages : List String) : CallToolResult :=
  { content := [{ type := "text", text := String.intercalate "\n" messages }],
    isError := true }

/-- The declarative part of a tool (`tool.schema` in the source).  The
`inputSchema` is a zod schema, opaque to the connection layer, so it is a
type parameter `σ`.  The behavior classification `type` is the string tag
used by the source (`'readOnly'`, `'destructive'`, ...). -/
structure ToolSchema (σ : Type) where
  name : String
  title : String
  description : String
  inputSchema : σ
  type : String

/-- A tool definition as the connection layer sees it: schema, capability
tag, and the optional modal-state kind the tool clears.  (In the source
`clearsModalState` has type `ModalState['type'] | undefined`, a union of
non-empty string literals, hence `Option String` with truthiness being
`isSome`.) -/
structure Tool (σ : Type) where
  schema : ToolSchema σ
  capability : String
  clearsModalState : Option String := none

/-- A blocking modal state owned by the session (`ModalState` in the
source): a kind tagplus a human-readable description. -/
structure ModalState where
  type : String
  description : String
  deriving Repr, DecidableEq

/-- The slice of the `Context` object the connection layer reads:
`modalStates()` and `modalStatesMarkdown()` (the rendering is produced by
context code outside the embedded files, so it is carried as data). -/
structure Context where
  modalStates : List ModalState
  modalStatesMarkdown : List String
  deriving Repr, DecidableEq

/-- The configuration fields `createConnection` and `Connection.close`
consult: `vision`, `capabilities` (possibly absent) and
`keepBrowserOpen`. -/
structure FullConfig where
  vision : Bool
  capabilities : Option (List String)
  keepBrowserOpen : Bool

/-- Tool selection from `createConnection`:
`config.vision ? visionTools : snapshotTools`, then filtered by
capability only when `config.capabilities` is present and non-empty
(`tool.capability === 'core' || config.capabilities.includes(...)`). -/
def selectTools {σ : Type} (vision : Bool) (capabilities : Option (List String))
    (visionTools snapshotTools : List (Tool σ)) : List (Tool σ) :=
  let allTools := if vision then visionTools else snapshotTools
  match capabilities with
  | some caps =>
      if caps.length > 0 then
        allTools.filter (fun tool => tool.capability == "core" || caps.contains tool.capability)
      else
        allTools
  | none => allTools

/-- Claim C1: for every mode and configured capability allow-list `L`, the
active tool set contains exactly the tools of the chosen catalog whose
capability tag is `"core"` or a member of `L`; when `L` is absent or
empty, the active set is the entire chosen catalog. -/
theorem selectTools_membership {σ : Type} (vision : Bool)
    (capabilities : Option (List String)) (visionTools snapshotTools : List (Tool σ))
    (t : Tool σ) :
    t ∈ selectTools vision capabilities visionTools snapshotTools ↔
      t ∈ (if vision then visionTools else snapshotTools) ∧
        (∀ L, capabilities = some L → L ≠ [] →
          t.capability = "core" ∨ t.capability ∈ L) := by
  unfold selectTools
  cases capabilities with
  | none => simp
  | some caps =>
      by_cases hlen : caps.length > 0
      · simp only [hlen, if_pos, List.mem_filter]
        constructor
        · rintro ⟨hmem, hp⟩
          refine ⟨hmem, ?_⟩
          rintro L hL -
          injection hL with hL
          subst hL
          rcases Bool.or_eq_true_iff.mp hp with h | h
          · exact Or.inl (by simpa using h)
          · exact Or.inr (by simpa using h)
        · rintro ⟨hmem, hp⟩
          refine ⟨hmem, ?_⟩
          have hne : caps ≠ [] := by
            intro hnil
            subst hnil
            simp at hlen
          rcases hp caps rfl hne with h | h
          · simp [h]
          · simp [h]
      · have hnil : caps = [] := List.length_eq_zero.mp (by omega)
        subst hnil
        simp

/-- Discovery annotations attached to each advertised tool. -/
structure ToolAnnotations where
  title : String
  readOnlyHint : Bool
  destructiveHint : Bool
  openWorldHint : Bool

/-- One entry of the ListTools response (`McpTool`); `τ` is the wire form
of a serialized input schema. -/
structure McpToolEntry (τ : Type) where
  name : String
  description : String
  inputSchema : τ
  annotations : ToolAnnotations

/-- The ListTools request handler from `createConnection`: maps every
active tool to its wire entry.  `serialize` stands for the external
`zodToJsonSchema`. -/
def listTools {σ τ : Type} (serialize : σ → τ) (tools : List (Tool σ)) :
    List (McpToolEntry τ) :=
  tools.map fun tool =>
    { name := tool.schema.name
      description := tool.schema.description
      inputSchema := serialize tool.schema.inputSchema
      annotations :=
        { title := tool.schema.title
          readOnlyHint := tool.schema.type == "readOnly"
          destructiveHint := tool.schema.type == "destructive"
          openWorldHint := true } }

/-- The CallTool request handler from `createConnection`.  `α` is the type
of raw request arguments; `run` stands for `context.run`, which may throw
(modelled as `Except String`, the error being `String(error)`) and may
mutate the context.  The handler:
1. resolves the name against the active set (`tools.find(...)`);
2. rejects when `tool.clearsModalState` is set but no current modal state
   matches, or when it is unset and modal states are present, appending
   `context.modalStatesMarkdown()` to the message;
3. otherwise delegates to `run`, catching any error and converting it to
   an error result. -/
def callTool {σ α : Type} (tools : List (Tool σ)) (ctx : Context)
    (run : Tool σ → α → Context → Except String CallToolResult × Context)
    (name : String) (args : α) : CallToolResult × Context :=
  match tools.find? (fun tool => tool.schema.name == name) with
  | none => (errorResult [s!"Tool \"{name}\" not found"], ctx)
  | some tool =>
      let modalStates := ctx.modalStates.map ModalState.type
      if tool.clearsModalState.any (fun k => !(modalStates.contains k)) then
        (errorResult
          (s!"The tool \"{name}\" can only be used when there is related modal state present."
            :: ctx.modalStatesMarkdown), ctx)
      else if tool.clearsModalState.isNone && !modalStates.isEmpty then
        (errorResult
          (s!"Tool \"{name}\" does not handle the modal state."
            :: ctx.modalStatesMarkdown), ctx)
      else
        match run tool args ctx with
        | (Except.ok result, ctx') => (result, ctx')
        | (Except.error e, ctx') => (errorResult [e], ctx')

/-- The per-connection state: the active tool set fixed at creation plus
the mutable context. -/
structure ConnState (σ : Type) where
  tools : List (Tool σ)
  ctx : Context

/-- `createConnection`: computes the active tool set once from the config
and pairs it with the context. -/
def createConnection {σ : Type} (config : FullConfig)
    (visionTools snapshotTools : List (Tool σ)) (ctx : Context) : ConnState σ :=
  { tools := selectTools config.vision config.capabilities visionTools snapshotTools
    ctx := ctx }

/-- A CallTool request processed against the connection state: only the
context component may change. -/
def connCallTool {σ α : Type} (run : Tool σ → α → Context → Except String CallToolResult × Context)
    (s : ConnState σ) (name : String) (args : α) : CallToolResult × ConnState σ :=
  let r := callTool s.tools s.ctx run name args
  (r.1, { s with ctx := r.2 })

/-- Processing a whole sequence of CallTool requests on a connection. -/
def processAll {σ α : Type} (run : Tool σ → α → Context → Except String CallToolResult × Context)
    (s : ConnState σ) : List (String × α) → ConnState σ
  | [] => s
  | (name, args) :: rest => processAll run (connCallTool run s name args).2 rest

/-- `Connection.close` as an event trace: `server.close()` always runs
first; `context.close()` runs afterwards unless
`config.keepBrowserOpen`. -/
inductive CloseEvent where
  | serverClose
  | contextClose
  deriving Repr, DecidableEq

/-- The trace of `Connection.close()` as a function of
`config.keepBrowserOpen`. -/
def connectionClose (keepBrowserOpen : Bool) : List CloseEvent :=
  [CloseEvent.serverClose] ++ (if keepBrowserOpen then [] else [CloseEvent.contextClose])

/-- Joining a single message leaves it unchanged. -/
theorem intercalate_singleton (sep a : String) : String.intercalate sep [a] = a := rfl

/-- Claim C2: when a tool's `clearsModalState` kind has no matching entry
in the current modal states, `callTool` returns the "can only be used
when there is related modal state present" error (with the rendered
modal-state list appended) without invoking the tool's handler: the
result is the same for every `run` and the context is unchanged. -/
theorem callTool_clearsModalState_absent {σ α : Type} (tools : List (Tool σ))
    (ctx : Context) (run : Tool σ → α → Context → Except String CallToolResult × Context)
    (name : String) (args : α) (tool : Tool σ) (k : String)
    (hfind : tools.find? (fun t => t.schema.name == name) = some tool)
    (hclears : tool.clearsModalState = some k)
    (habsent : (ctx.modalStates.map ModalState.type).contains k = false) :
    callTool tools ctx run name args =
      (errorResult
        (s!"The tool \"{name}\" can only be used when there is related modal state present."
          :: ctx.modalStatesMarkdown), ctx) ∧
    (callTool tools ctx run name args).1.isError = true := by
  have hcond : tool.clearsModalState.any
      (fun k2 => !((ctx.modalStates.map ModalState.type).contains k2)) = true := by
    rw [hclears, Option.any_some, habsent]
    rfl
  have hmain : callTool tools ctx run name args =
      (errorResult
        (s!"The tool \"{name}\" can only be used when there is related modal state present."
          :: ctx.modalStatesMarkdown), ctx) := by
    unfold callTool
    rw [hfind]
    simp only [hcond, if_true]
  exact ⟨hmain, by rw [hmain]; rfl⟩

/-- Claim C3: when a tool has no `clearsModalState` and the modal-state
stack is non-empty, `callTool` returns the "does not handle the modal
state" error (with the rendered modal-state list appended) without
invoking the tool's handler: the result is the same for every `run` and
the context is unchanged. -/
theorem callTool_modalState_unhandled {σ α : Type} (tools : List (Tool σ))
    (ctx : Context) (run : Tool σ → α → Context → Except String CallToolResult × Context)
    (name : String) (args : α) (tool : Tool σ)
    (hfind : tools.find? (fun t => t.schema.name == name) = some tool)
    (hclears : tool.clearsModalState = none)
    (hne : ctx.modalStates ≠ []) :
    callTool tools ctx run name args =
      (errorResult
        (s!"Tool \"{name}\" does not handle the modal state."
          :: ctx.modalStatesMarkdown), ctx) ∧
    (callTool tools ctx run name args).1.isError = true := by
  have hempty : (ctx.modalStates.map ModalState.type).isEmpty = false := by
    cases h : ctx.modalStates with
    | nil => exact absurd h hne
    | cons a l => rfl
  have hcond1 : tool.clearsModalState.any
      (fun k2 => !((ctx.modalStates.map ModalState.type).contains k2)) = false := by
    rw [hclears]
    rfl
  have hcond2 : (tool.clearsModalState.isNone
      && !(ctx.modalStates.map ModalState.type).isEmpty) = true := by
    rw [hclears, hempty]
    rfl
  have hmain : callTool tools ctx run name args =
      (errorResult
        (s!"Tool \"{name}\" does not handle the modal state."
          :: ctx.modalStatesMarkdown), ctx) := by
    unfold callTool
    rw [hfind]
    simp only [hcond1, hcond2, Bool.false_eq_true, if_false, if_true]
  exact ⟨hmain, by rw [hmain]; rfl⟩

/-- Claim C4: when the requested name resolves to no tool in the active
set, `callTool` returns (never throws) the envelope
`{isError: true, content: [{type: "text", text: "Tool \"name\" not found"}]}`,
for every `run`, with the context unchanged. -/
theorem callTool_not_found {σ α : Type} (tools : List (Tool σ)) (ctx : Context)
    (run : Tool σ → α → Context → Except String CallToolResult × Context)
    (name : String) (args : α)
    (hfind : tools.find? (fun t => t.schema.name == name) = none) :
    callTool tools ctx run name args =
      ({ content := [{ type := "text", text := s!"Tool \"{name}\" not found" }],
         isError := true }, ctx) := by
  unfold callTool
  rw [hfind]
  rfl

/-- Claim C5: when the executor `run` fails with error string `e` (the
stringified exception) and the gate checks pass, `callTool` catches it
and returns `{isError: true}` with a single text content equal to `e`;
no exception escapes (`callTool` is a total function into results). -/
theorem callTool_catches_run_error {σ α : Type} (tools : List (Tool σ))
    (ctx ctx' : Context)
    (run : Tool σ → α → Context → Except String CallToolResult × Context)
    (name : String) (args : α) (tool : Tool σ) (e : String)
    (hfind : tools.find? (fun t => t.schema.name == name) = some tool)
    (hgate1 : tool.clearsModalState.any
      (fun k => !((ctx.modalStates.map ModalState.type).contains k)) = false)
    (hgate2 : (tool.clearsModalState.isNone
      && !(ctx.modalStates.map ModalState.type).isEmpty) = false)
    (hrun : run tool args ctx = (Except.error e, ctx')) :
    callTool tools ctx run name args =
      ({ content := [{ type := "text", text := e }], isError := true }, ctx') := by
  unfold callTool
  rw [hfind]
  simp only [hgate1, hgate2, Bool.false_eq_true, if_false, hrun]
  rfl

/-- Claim C6: every tool of the active set is advertised by `listTools`
with its name, description, serialized input schema, and annotations
where `readOnlyHint` holds iff the behavior type is `"readOnly"`,
`destructiveHint` holds iff it is `"destructive"`, `title` is the tool's
title and `openWorldHint` is always `true`. -/
theorem listTools_entries {σ τ : Type} (serialize : σ → τ) (tools : List (Tool σ))
    (i : Nat) (tool : Tool σ) (h : tools[i]? = some tool) :
    ∃ e, (listTools serialize tools)[i]? = some e ∧
      e.name = tool.schema.name ∧
      e.description = tool.schema.description ∧
      e.inputSchema = serialize tool.schema.inputSchema ∧
      e.annotations.title = tool.schema.title ∧
      (e.annotations.readOnlyHint = true ↔ tool.schema.type = "readOnly") ∧
      (e.annotations.destructiveHint = true ↔ tool.schema.type = "destructive") ∧
      e.annotations.openWorldHint = true := by
  refine ⟨{ name := tool.schema.name
            description := tool.schema.description
            inputSchema := serialize tool.schema.inputSchema
            annotations :=
              { title := tool.schema.title
                readOnlyHint := tool.schema.type == "readOnly"
                destructiveHint := tool.schema.type == "destructive"
                openWorldHint := true } }, ?_, rfl, rfl, rfl, rfl, ?_, ?_, rfl⟩
  · simp [listTools, List.getElem?_map, h]
  · simp
  · simp

/-- Claim C7: `close()` closes the protocol transport first
(`serverClose` heads the trace), tears the session down afterwards when
`keepBrowserOpen` is not set, and skips session teardown entirely when
it is set; `contextClose` appears in the trace iff `keepBrowserOpen` is
false. -/
theorem connectionClose_spec (keepBrowserOpen : Bool) :
    (connectionClose keepBrowserOpen).head? = some CloseEvent.serverClose ∧
    (keepBrowserOpen = false →
      connectionClose keepBrowserOpen = [CloseEvent.serverClose, CloseEvent.contextClose]) ∧
    (keepBrowserOpen = true →
      connectionClose keepBrowserOpen = [CloseEvent.serverClose]) ∧
    (CloseEvent.contextClose ∈ connectionClose keepBrowserOpen ↔ keepBrowserOpen = false) := by
  cases keepBrowserOpen <;> simp [connectionClose]

/-- The tools component of the connection state is invariant under any
sequence of CallTool requests. -/
theorem processAll_tools {σ α : Type}
    (run : Tool σ → α → Context → Except String CallToolResult × Context)
    (reqs : List (String × α)) :
    ∀ s : ConnState σ, (processAll run s reqs).tools = s.tools := by
  induction reqs with
  | nil => intro s; rfl
  | cons r rest ih =>
      intro s
      obtain ⟨name, args⟩ := r
      rw [processAll, ih]
      rfl

/-- Claim C8: the active tool set is fixed at `createConnection` and
never changes over the connection's lifetime, whatever CallTool requests
are processed; hence ListTools output is identical before and after any
request sequence (in particular for two consecutive calls). -/
theorem activeToolSet_immutable {σ α τ : Type} (serialize : σ → τ)
    (run : Tool σ → α → Context → Except String CallToolResult × Context)
    (config : FullConfig) (visionTools snapshotTools : List (Tool σ))
    (ctx : Context) (reqs : List (String × α)) :
    (processAll run (createConnection config visionTools snapshotTools ctx) reqs).tools =
      (createConnection config visionTools snapshotTools ctx).tools ∧
    listTools serialize
        (processAll run (createConnection config visionTools snapshotTools ctx) reqs).tools =
      listTools serialize (createConnection config visionTools snapshotTools ctx).tools := by
  refine ⟨processAll_tools run reqs _, ?_⟩
  rw [processAll_tools run reqs _]

/-- A concrete destructive tool with no `clearsModalState` (shaped like
`browser_click`). -/
def sampleToolA : Tool Unit :=
  { schema :=
      { name := "browser_click"
        title := "Click"
        description := "Perform click on a web page"
        inputSchema := ()
        type := "destructive" }
    capability := "core" }

/-- A concrete tool that clears the `"dialog"` modal state (shaped like
`browser_handle_dialog`). -/
def sampleToolB : Tool Unit :=
  { schema :=
      { name := "browser_handle_dialog"
        title := "Handle a dialog"
        description := "Handle a dialog"
        inputSchema := ()
        type := "destructive" }
    capability := "core"
    clearsModalState := some "dialog" }

/-- A context with no modal states. -/
def sampleCtxEmpty : Context :=
  { modalStates := [], modalStatesMarkdown := [] }

/-- A context with one open dialog modal state. -/
def sampleCtxDialog : Context :=
  { modalStates := [{ type := "dialog", description := "alert dialog" }]
    modalStatesMarkdown := ["### Modal state", "- [alert dialog]"] }

/-- An executor that succeeds with an empty result. -/
def sampleRunOk : Tool Unit → Unit → Context → Except String CallToolResult × Context :=
  fun _ _ c => (Except.ok { content := [], isError := false }, c)

/-- An executor that throws; the string is the `String(error)` form. -/
def sampleRunErr : Tool Unit → Unit → Context → Except String CallToolResult × Context :=
  fun _ _ c => (Except.error "Error: boom", c)

/-- Witness for claim C2: `browser_handle_dialog` (clears `"dialog"`)
called with no modal state present is rejected. -/
theorem callTool_clearsModalState_absent_witness :
    ([sampleToolB].find? (fun t => t.schema.name == "browser_handle_dialog")
        = some sampleToolB) ∧
    sampleToolB.clearsModalState = some "dialog" ∧
    ((sampleCtxEmpty.modalStates.map ModalState.type).contains "dialog" = false) ∧
    (callTool [sampleToolB] sampleCtxEmpty sampleRunOk "browser_handle_dialog" () =
      (errorResult
        ("The tool \"browser_handle_dialog\" can only be used when there is related modal state present."
          :: sampleCtxEmpty.modalStatesMarkdown), sampleCtxEmpty) ∧
     (callTool [sampleToolB] sampleCtxEmpty sampleRunOk "browser_handle_dialog" ()).1.isError
        = true) :=
  ⟨rfl, rfl, rfl,
    callTool_clearsModalState_absent [sampleToolB] sampleCtxEmpty sampleRunOk
      "browser_handle_dialog" () sampleToolB "dialog" rfl rfl rfl⟩

/-- Witness for claim C3: `browser_click` (no `clearsModalState`) called
while a dialog modal state is open is rejected. -/
theorem callTool_modalState_unhandled_witness :
    ([sampleToolA].find? (fun t => t.schema.name == "browser_click") = some sampleToolA) ∧
    sampleToolA.clearsModalState = none ∧
    sampleCtxDialog.modalStates ≠ [] ∧
    (callTool [sampleToolA] sampleCtxDialog sampleRunOk "browser_click" () =
      (errorResult
        ("Tool \"browser_click\" does not handle the modal state."
          :: sampleCtxDialog.modalStatesMarkdown), sampleCtxDialog) ∧
     (callTool [sampleToolA] sampleCtxDialog sampleRunOk "browser_click" ()).1.isError
        = true) :=
  ⟨rfl, rfl, by decide,
    callTool_modalState_unhandled [sampleToolA] sampleCtxDialog sampleRunOk
      "browser_click" () sampleToolA rfl rfl (by decide)⟩

/-- Witness for claim C4: calling the unknown name `"nonexistent"`
returns the `Tool "nonexistent" not found` error envelope. -/
theorem callTool_not_found_witness :
    ([sampleToolA].find? (fun t => t.schema.name == "nonexistent") = none) ∧
    callTool [sampleToolA] sampleCtxEmpty sampleRunOk "nonexistent" () =
      ({ content := [{ type := "text", text := "Tool \"nonexistent\" not found" }],
         isError := true }, sampleCtxEmpty) :=
  ⟨rfl,
    callTool_not_found [sampleToolA] sampleCtxEmpty sampleRunOk "nonexistent" () rfl⟩

/-- Witness for claim C5: an executor error `"Error: boom"` is caught and
becomes the error envelope with that exact text. -/
theorem callTool_catches_run_error_witness :
    ([sampleToolA].find? (fun t => t.schema.name == "browser_click") = some sampleToolA) ∧
    (sampleToolA.clearsModalState.any
      (fun k => !((sampleCtxEmpty.modalStates.map ModalState.type).contains k)) = false) ∧
    ((sampleToolA.clearsModalState.isNone
      && !(sampleCtxEmpty.modalStates.map ModalState.type).isEmpty) = false) ∧
    (sampleRunErr sampleToolA () sampleCtxEmpty
        = (Except.error "Error: boom", sampleCtxEmpty)) ∧
    callTool [sampleToolA] sampleCtxEmpty sampleRunErr "browser_click" () =
      ({ content := [{ type := "text", text := "Error: boom" }], isError := true },
        sampleCtxEmpty) :=
  ⟨rfl, rfl, rfl, rfl,
    callTool_catches_run_error [sampleToolA] sampleCtxEmpty sampleCtxEmpty sampleRunErr
      "browser_click" () sampleToolA "Error: boom" rfl rfl rfl rfl⟩

/-- Witness for claim C6: the advertised entry for `sampleToolA` carries
its schema data and the annotation hints. -/
theorem listTools_entries_witness :
    (([sampleToolA] : List (Tool Unit))[0]? = some sampleToolA) ∧
    (∃ e, (listTools (fun u : Unit => u) [sampleToolA])[0]? = some e ∧
      e.name = sampleToolA.schema.name ∧
      e.description = sampleToolA.schema.description ∧
      e.inputSchema = (fun u : Unit => u) sampleToolA.schema.inputSchema ∧
      e.annotations.title = sampleToolA.schema.title ∧
      (e.annotations.readOnlyHint = true ↔ sampleToolA.schema.type = "readOnly") ∧
      (e.annotations.destructiveHint = true ↔ sampleToolA.schema.type = "destructive") ∧
      e.annotations.openWorldHint = true) :=
  ⟨rfl, listTools_entries (fun u : Unit => u) [sampleToolA] 0 sampleToolA rfl⟩

/-- Witness for claim C7: with `keepBrowserOpen = false` the close trace
is transport close followed by session teardown. -/
theorem connectionClose_witness :
    (false = false) ∧
    connectionClose false = [CloseEvent.serverClose, CloseEvent.contextClose] :=
  ⟨rfl, (connectionClose_spec false).2.1 rfl⟩

/-- `sub.isPrefixOf`-based scan implementing JavaScript
`String.prototype.includes` on character lists. -/
def includesAux (sub : List Char) : List Char → Bool
  | [] => sub.isEmpty
  | c :: rest => sub.isPrefixOf (c :: rest) || includesAux sub rest

/-- JavaScript `s.includes(sub)`: `sub` occurs contiguously in `s`. -/
def strIncludes (s sub : String) : Bool :=
  includesAux sub.data s.data

/-- JavaScript truthiness of an optional string: `undefined` and `""` are
falsy, every other string is truthy (`!!x`). -/
def optTruthy (o : Option String) : Bool :=
  o.any (fun s => !(s == ""))

/-- The typed shape of `screenshotSchema` before the `.refine(...)` step:
`raw`, `fullPage`, `element`, `ref` are optional; `filename` is
required. -/
structure ScreenshotParams where
  raw : Option Bool
  filename : String
  fullPage : Option Bool
  element : Option String
  ref : Option String
  deriving Repr, DecidableEq

/-- The `.refine` step of `screenshotSchema`: validation succeeds iff
`!!data.element === !!data.ref`, otherwise it fails with the declared
message. -/
def screenshotParse (data : ScreenshotParams) : Except String ScreenshotParams :=
  if optTruthy data.element == optTruthy data.ref then
    Except.ok data
  else
    Except.error "Both element and ref must be provided or neither."

/-- The playwright `PageScreenshotOptions` object built by the handler. -/
structure ScreenshotOptions where
  type : String
  quality : Option Nat
  scale : String
  path : String
  fullPage : Bool

/-- The `resultOverride` value returned by the screenshot handler. -/
structure ResultOverride where
  content : List TextContent

/-- The `ToolResult` returned by the screenshot handler.  The deferred
`action` closure screenshots either a locator or the page with the built
options, so it is represented by that data (`L` is the opaque playwright
locator type). -/
structure ScreenshotToolResult (L : Type) where
  code : List String
  actionLocator : Option L
  actionOptions : ScreenshotOptions
  captureSnapshot : Bool
  waitForNetwork : Bool
  resultOverride : ResultOverride

/-- The `handle` function of `browser_take_screenshot`.  External
collaborators are parameters: `standardizedOutputFile` and `outputFile`
from `config.js`, `generateLocator` and `formatObject` from the helper
modules, `refLocator` from the page snapshot; `pageUrl` is
`tab.page.url()`. -/
def screenshotHandle {L : Type}
    (standardizedOutputFile : String → String → String)
    (outputFile : FullConfig → String → String)
    (generateLocator : L → String)
    (formatObject : ScreenshotOptions → String)
    (refLocator : String → String → L)
    (config : FullConfig) (pageUrl : String)
    (params : ScreenshotParams) : ScreenshotToolResult L :=
  let fileType := if params.raw.getD false then "png" else "jpeg"
  let useStandardizedPath :=
    strIncludes params.filename "screenshot" || strIncludes params.filename "capture"
  let fileName :=
    if useStandardizedPath then standardizedOutputFile pageUrl fileType
    else outputFile config params.filename
  let options : ScreenshotOptions :=
    { type := fileType
      quality := if fileType == "png" then none else some 50
      scale := "css"
      path := fileName
      fullPage := params.fullPage.getD false }
  let isElementScreenshot := optTruthy params.element && optTruthy params.ref
  let subject :=
    if isElementScreenshot then params.element.getD ""
    else if params.fullPage.getD false then "full page" else "viewport"
  let firstLine := s!"// Screenshot {subject} and save it as {fileName}"
  let locator : Option L :=
    if optTruthy params.ref then
      some (refLocator (params.element.getD "") (params.ref.getD ""))
    else none
  let codeLines :=
    match locator with
    | some l =>
        let locStr := generateLocator l
        let objStr := formatObject options
        [firstLine, s!"await page.{locStr}.screenshot({objStr});"]
    | none =>
        let objStr := formatObject options
        [firstLine, s!"await page.screenshot({objStr});"]
  { code := codeLines
    actionLocator := locator
    actionOptions := options
    captureSnapshot := true
    waitForNetwork := false
    resultOverride :=
      { content := [{ type := "text", text := s!"Screenshot saved to: {fileName}" }] } }

/-- The screenshot tool as run by the executor: validate the raw
arguments with the schema, then invoke the handler on the validated
arguments. -/
def runScreenshotTool {L : Type}
    (standardizedOutputFile : String → String → String)
    (outputFile : FullConfig → String → String)
    (generateLocator : L → String)
    (formatObject : ScreenshotOptions → String)
    (refLocator : String → String → L)
    (config : FullConfig) (pageUrl : String)
    (data : ScreenshotParams) : Except String (ScreenshotToolResult L) :=
  match screenshotParse data with
  | Except.ok params =>
      Except.ok (screenshotHandle standardizedOutputFile outputFile generateLocator
        formatObject refLocator config pageUrl params)
  | Except.error e => Except.error e

/-- Claim C9: when the validated `filename` contains `"screenshot"` or
`"capture"`, the screenshot is saved to the path produced by
`standardizedOutputFile` from the page URL and the file type (the
caller-supplied filename is ignored); otherwise the path is produced by
`outputFile` from the caller-supplied filename. -/
theorem screenshot_path_choice {L : Type}
    (standardizedOutputFile : String → String → String)
    (outputFile : FullConfig → String → String)
    (generateLocator : L → String) (formatObject : ScreenshotOptions → String)
    (refLocator : String → String → L) (config : FullConfig) (pageUrl : String)
    (params : ScreenshotParams) :
    ((strIncludes params.filename "screenshot" || strIncludes params.filename "capture")
        = true →
      (screenshotHandle standardizedOutputFile outputFile generateLocator formatObject
          refLocator config pageUrl params).actionOptions.path =
        standardizedOutputFile pageUrl
          (if params.raw.getD false then "png" else "jpeg")) ∧
    ((strIncludes params.filename "screenshot" || strIncludes params.filename "capture")
        = false →
      (screenshotHandle standardizedOutputFile outputFile generateLocator formatObject
          refLocator config pageUrl params).actionOptions.path =
        outputFile config params.filename) := by
  constructor <;> intro h <;> simp [screenshotHandle, h]

/-- Claim C10 counterexample: the argument object with
`element = some ""` and `ref` absent provides exactly one of the two
fields, yet `screenshotSchema` accepts it (JavaScript `!!""` is `false`,
so `!!data.element === !!data.ref` holds); the presence-based iff stated
by the claim is therefore false on this input. -/
theorem screenshotSchema_presence_counterexample :
    ¬ (((screenshotParse
          { raw := none, filename := "page.png", fullPage := none,
            element := some "", ref := none }).isOk = true) ↔
        (({ raw := none, filename := "page.png", fullPage := none,
            element := some "", ref := none } : ScreenshotParams).element.isSome =
         ({ raw := none, filename := "page.png", fullPage := none,
            element := some "", ref := none } : ScreenshotParams).ref.isSome)) := by
  decide

/-- Claim C10 (amended): `screenshotSchema` accepts an argument object
iff `element` and `ref` are both truthy (present and non-empty) or both
falsy (absent or empty); whenever exactly one of the two is truthy,
validation fails with the message
"Both element and ref must be provided or neither." and the handler is
never invoked. -/
theorem screenshotSchema_truthiness {L : Type}
    (standardizedOutputFile : String → String → String)
    (outputFile : FullConfig → String → String)
    (generateLocator : L → String) (formatObject : ScreenshotOptions → String)
    (refLocator : String → String → L) (config : FullConfig) (pageUrl : String)
    (data : ScreenshotParams) :
    ((screenshotParse data).isOk = true ↔ optTruthy data.element = optTruthy data.ref) ∧
    (optTruthy data.element ≠ optTruthy data.ref →
      runScreenshotTool standardizedOutputFile outputFile generateLocator formatObject
          refLocator config pageUrl data =
        Except.error "Both element and ref must be provided or neither.") := by
  constructor
  · unfold screenshotParse
    by_cases h : optTruthy data.element = optTruthy data.ref
    · simp [h, Except.isOk, Except.toBool]
    · simp [h, Except.isOk, Except.toBool]
  · intro h
    have hbeq : (optTruthy data.element == optTruthy data.ref) = false := by
      simp [h]
    unfold runScreenshotTool screenshotParse
    simp [hbeq]

/-- A concrete configuration for witnesses. -/
def sampleConfig : FullConfig :=
  { vision := false, capabilities := none, keepBrowserOpen := false }

/-- Concrete stand-in for `standardizedOutputFile`. -/
def sofSample : String → String → String :=
  fun url fileType => "out/page-" ++ url ++ "." ++ fileType

/-- Concrete stand-in for `outputFile`. -/
def outfSample : FullConfig → String → String :=
  fun _ filename => "out/" ++ filename

/-- Concrete stand-in for `generateLocator`. -/
def genLocSample : Unit → String := fun _ => "getByRole(\x7b\x7d)"

/-- Concrete stand-in for `javascript.formatObject`. -/
def fmtObjSample : ScreenshotOptions → String := fun _ => "\x7b\x7d"

/-- Concrete stand-in for `snapshot.refLocator`. -/
def refLocSample : String → String → Unit := fun _ _ => ()

/-- Screenshot arguments whose filename contains `"screenshot"`. -/
def pStandardized : ScreenshotParams :=
  { raw := none, filename := "my-screenshot", fullPage := none,
    element := none, ref := none }

/-- Screenshot arguments whose filename contains neither substring. -/
def pPlain : ScreenshotParams :=
  { raw := some true, filename := "shot.png", fullPage := none,
    element := none, ref := none }

/-- Witness for claim C9: `"my-screenshot"` routes to
`standardizedOutputFile`, `"shot.png"` routes to `outputFile`. -/
theorem screenshot_path_choice_witness :
    ((strIncludes pStandardized.filename "screenshot"
        || strIncludes pStandardized.filename "capture") = true) ∧
    (screenshotHandle sofSample outfSample genLocSample fmtObjSample refLocSample
        sampleConfig "http://example.com" pStandardized).actionOptions.path =
      sofSample "http://example.com" "jpeg" ∧
    ((strIncludes pPlain.filename "screenshot"
        || strIncludes pPlain.filename "capture") = false) ∧
    (screenshotHandle sofSample outfSample genLocSample fmtObjSample refLocSample
        sampleConfig "http://example.com" pPlain).actionOptions.path =
      outfSample sampleConfig pPlain.filename :=
  ⟨by decide,
    (screenshot_path_choice sofSample outfSample genLocSample fmtObjSample refLocSample
      sampleConfig "http://example.com" pStandardized).1 (by decide),
    by decide,
    (screenshot_path_choice sofSample outfSample genLocSample fmtObjSample refLocSample
      sampleConfig "http://example.com" pPlain).2 (by decide)⟩

/-- Screenshot arguments with a truthy `element` and no `ref`. -/
def pElemOnly : ScreenshotParams :=
  { raw := none, filename := "page.png", fullPage := none,
    element := some "Submit button", ref := none }

/-- Witness for claim C10 (amended): with a truthy `element` and no
`ref`, validation fails with the declared message and the handler is not
reached. -/
theorem screenshotSchema_truthiness_witness :
    (optTruthy pElemOnly.element ≠ optTruthy pElemOnly.ref) ∧
    runScreenshotTool sofSample outfSample genLocSample fmtObjSample refLocSample
        sampleConfig "http://example.com" pElemOnly =
      Except.error "Both element and ref must be provided or neither." :=
  ⟨by decide,
    (screenshotSchema_truthiness sofSample outfSample genLocSample fmtObjSample
      refLocSample sampleConfig "http://example.com" pElemOnly).2 (by decide)⟩

end PlaywrightMcp
